import Mathlib

/-!
Shallow embedding of the xrpbot trading program (modules/risk_manager.py,
modules/backtest.py, main.py).  Prices, balances and quantities are embedded
as exact rationals (`ℚ`); Python `None` becomes `Option`; the module-level
configuration constants (`RISK_PER_TRADE`, `LEVERAGE`, ...) are passed as
explicit parameters; calls into the exchange client (balances, symbol info,
open orders) are passed as explicit inputs; the `np.random.uniform` slippage
draws are passed as explicit slippage parameters.
-/

/-- Position / order side, Python strings `"BUY"` / `"SELL"`. -/
inductive Side
| buy
| sell
deriving DecidableEq, Repr

/-- Strategy signal, Python strings `"BUY"` / `"SELL"` or anything else. -/
inductive Signal
| buy
| sell
| hold
deriving DecidableEq, Repr

/-- Symbol filter data returned by `get_symbol_info`.  `min_qty` is embedded
through its decimal precision: `min_qty = 10 ^ (-stepPrecision)`, so that
`get_step_size(min_qty) = min_qty` and
`int(round(-math.log10(step_size))) = stepPrecision`. -/
structure SymbolInfo where
  quantityPrecision : ℕ
  stepPrecision : ℕ
  minNotional : ℚ
  pricePrecision : ℕ
deriving DecidableEq, Repr

/-- `risk_manager.round_step_size`: `floor(q·10^p)/10^p`; the outer
`round(·, precision)` of the source is the identity on this exact value. -/
def roundStepSize (quantity : ℚ) (stepPrecision : ℕ) : ℚ :=
  (⌊quantity * 10 ^ stepPrecision⌋ : ℚ) / 10 ^ stepPrecision

/-- `math.ceil(x * 10**p) / 10**p` as used for the min-notional bump and for
the trailing take-profit rounding. -/
def ceilTo (x : ℚ) (p : ℕ) : ℚ :=
  (⌈x * 10 ^ p⌉ : ℚ) / 10 ^ p

/-- `math.floor(x * 10**p) / 10**p` as used for the trailing take-profit
rounding of long positions. -/
def floorTo (x : ℚ) (p : ℕ) : ℚ :=
  (⌊x * 10 ^ p⌋ : ℚ) / 10 ^ p

/-- Round half to even on `ℚ` (exact-value semantics of Python `round`). -/
def roundHalfEven (x : ℚ) : ℤ :=
  if x - ⌊x⌋ < 1/2 then ⌊x⌋
  else if x - ⌊x⌋ > 1/2 then ⌊x⌋ + 1
  else if ⌊x⌋ % 2 = 0 then ⌊x⌋ else ⌊x⌋ + 1

/-- Python `round(x, p)` on the exact rational value. -/
def pyRound (x : ℚ) (p : ℕ) : ℚ :=
  (roundHalfEven (x * 10 ^ p) : ℚ) / 10 ^ p

/-- `RiskManager.calculate_position_size` (risk_manager.py lines 19-93),
as a function of its inputs: account balance, the `RISK_PER_TRADE` and
`USE_STOP_LOSS` configuration, the current price, the optional stop-loss
price (`0` is falsy in Python, hence routed to the no-stop branch), the
leverage reported by `get_current_leverage`, and the symbol filters.
The auto-compound block only logs and updates `last_known_balance`;
it does not affect the returned quantity. -/
def riskCalculatePositionSize (balance riskPerTrade : ℚ) (useStopLoss : Bool)
    (price : ℚ) (stopLossPrice : Option ℚ) (leverage : ℚ)
    (info : SymbolInfo) : ℚ :=
  if balance ≤ 0 then 0
  else
    let riskAmount := balance * riskPerTrade
    let maxQuantityOpt : Option ℚ :=
      match stopLossPrice, useStopLoss with
      | some sl, true =>
        if sl = 0 then some (balance * riskPerTrade * leverage / price)
        else if |price - sl| ≤ 0 then none
        else some (riskAmount / |price - sl|)
      | _, _ => some (balance * riskPerTrade * leverage / price)
    match maxQuantityOpt with
    | none => 0
    | some maxQuantity =>
      let quantity := roundStepSize maxQuantity info.stepPrecision
      if quantity * price < info.minNotional then
        if info.minNotional / price ≤ maxQuantity then
          ceilTo (info.minNotional / price) info.quantityPrecision
        else 0
      else quantity

/-- `Backtester.calculate_position_size` (backtest.py lines 69-99):
risk-based size with leverage, capped so that the margin
`position_size · price / leverage` does not exceed 50% of the balance.
A stop price of `0` is falsy in Python and routed to the default branch. -/
def btCalculatePositionSize (balance riskPerTrade leverage price : ℚ)
    (stopPrice : Option ℚ) : ℚ :=
  let riskAmount := balance * riskPerTrade
  let maxPositionValue := balance * (1/2)
  let defaultBranch : ℚ :=
    let positionSize := balance * riskPerTrade * leverage / price
    if positionSize * price / leverage > maxPositionValue then
      maxPositionValue * leverage / price
    else positionSize
  match stopPrice with
  | some sp =>
    if sp = 0 then defaultBranch
    else
      let riskPerUnit := |price - sp|
      if riskPerUnit ≤ 0 then 0
      else
        let positionSize := riskAmount * leverage / riskPerUnit
        if positionSize * price / leverage > maxPositionValue then
          maxPositionValue * leverage / price
        else positionSize
  | none => defaultBranch

/-- Configuration constants used by the `Backtester`
(`RISK_PER_TRADE`, `STOP_LOSS_PCT`, `TAKE_PROFIT_PCT`, `BACKTEST_COMMISSION`,
`LEVERAGE`, `BACKTEST_USE_AUTO_COMPOUND`, `COMPOUND_REINVEST_PERCENT`). -/
structure BTParams where
  riskPerTrade : ℚ
  stopLossPct : ℚ
  takeProfitPct : ℚ
  commissionRate : ℚ
  leverage : ℚ
  autoCompound : Bool
  reinvestPct : ℚ
deriving DecidableEq

/-- An `'entry'` record appended to `Backtester.trades`. -/
structure EntryRec where
  side : Side
  price : ℚ
  intendedPrice : ℚ
  slippagePct : ℚ
  size : ℚ
  cost : ℚ
  commission : ℚ
  balance : ℚ
  stopLoss : ℚ
  takeProfit : ℚ
deriving DecidableEq

/-- An `'exit'` record appended to `Backtester.trades` (the `pnl_pct`
field, unused by any claim, is omitted). -/
structure ExitRec where
  price : ℚ
  intendedPrice : ℚ
  slippagePct : ℚ
  size : ℚ
  pnl : ℚ
  reinvested : ℚ
  commission : ℚ
  balance : ℚ
  reason : String
deriving DecidableEq

/-- A ledger entry of `Backtester.trades`. -/
inductive TradeRec
| entry (e : EntryRec)
| exit (e : ExitRec)
deriving DecidableEq

/-- The exit reason of a ledger entry, `none` for entry records. -/
def TradeRec.reasonOf : TradeRec → Option String
| .entry _ => none
| .exit e => some e.reason

/-- Whether a ledger entry is an entry record. -/
def TradeRec.isEntry : TradeRec → Bool
| .entry _ => true
| .exit _ => false

/-- The pre-slippage `intended_price` of an exit record, `none` for entry
records. -/
def TradeRec.intendedOf : TradeRec → Option ℚ
| .entry _ => none
| .exit e => some e.intendedPrice

/-- The traded size recorded in a ledger entry. -/
def TradeRec.qtyOf : TradeRec → ℚ
| .entry e => e.size
| .exit e => e.size

/-- The mutable state of a `Backtester`. -/
structure BTState where
  balance : ℚ
  inPosition : Bool
  positionSide : Option Side
  positionSize : ℚ
  entryPrice : ℚ
  stopLoss : ℚ
  takeProfit : ℚ
  trades : List TradeRec
  totalTrades : ℕ
  winningTrades : ℕ
  losingTrades : ℕ
  totalProfitLoss : ℚ
  equityCurve : List ℚ
deriving DecidableEq

/-- `Backtester.exit_position` (backtest.py lines 181-253).  The
`np.random.uniform(0.0005, 0.002)` slippage draw is the explicit
parameter `slip`. -/
def exitPosition (p : BTParams) (slip price : ℚ) (reason : String)
    (st : BTState) : BTState :=
  if st.inPosition = false then st
  else
    let executionPrice :=
      match st.positionSide with
      | some .buy => price * (1 - slip)
      | _ => price * (1 + slip)
    let grossPnl :=
      match st.positionSide with
      | some .buy => (executionPrice - st.entryPrice) * st.positionSize
      | _ => (st.entryPrice - executionPrice) * st.positionSize
    let cost := st.positionSize * executionPrice / p.leverage
    let commission := cost * p.commissionRate
    let pnl := grossPnl - commission
    let positionValue := st.positionSize * st.entryPrice / p.leverage
    let reinvested := if p.autoCompound ∧ pnl > 0 then pnl * p.reinvestPct else 0
    let newBalance :=
      if p.autoCompound ∧ pnl > 0 then
        st.balance + positionValue + (pnl - reinvested)
      else
        st.balance + positionValue + pnl
    { st with
      balance := newBalance
      totalTrades := st.totalTrades + 1
      winningTrades := if pnl > 0 then st.winningTrades + 1 else st.winningTrades
      losingTrades := if pnl > 0 then st.losingTrades else st.losingTrades + 1
      totalProfitLoss := st.totalProfitLoss + pnl
      trades := st.trades ++
        [.exit ⟨executionPrice, price, slip * 100, st.positionSize, pnl,
                reinvested, commission, newBalance, reason⟩]
      inPosition := false
      positionSide := none
      positionSize := 0
      entryPrice := 0
      stopLoss := 0
      takeProfit := 0 }

/-- `Backtester.enter_position` (backtest.py lines 101-179).  The
`np.random.uniform(0.0005, 0.0015)` slippage draw is the explicit
parameter `slip`. -/
def enterPosition (p : BTParams) (slip : ℚ) (side : Side) (price : ℚ)
    (stopLossOpt takeProfitOpt : Option ℚ) (st : BTState) : BTState :=
  if st.inPosition then st
  else
    let stopLossPrice := stopLossOpt.getD
      (match side with
       | .buy => price * (1 - p.stopLossPct)
       | .sell => price * (1 + p.stopLossPct))
    let takeProfitPrice := takeProfitOpt.getD
      (match side with
       | .buy => price * (1 + p.takeProfitPct)
       | .sell => price * (1 - p.takeProfitPct))
    let rawSize := btCalculatePositionSize st.balance p.riskPerTrade
      p.leverage price (some stopLossPrice)
    let executionPrice :=
      match side with
      | .buy => price * (1 + slip)
      | .sell => price * (1 - slip)
    let maxPositionValue := st.balance * (1/5)
    let rawCost := rawSize * executionPrice / p.leverage
    let cappedSize :=
      if rawCost > maxPositionValue then maxPositionValue * p.leverage / executionPrice
      else rawSize
    let cappedCost := if rawCost > maxPositionValue then maxPositionValue else rawCost
    let cappedCommission := cappedCost * p.commissionRate
    let finalSize :=
      if cappedCost + cappedCommission > st.balance then
        (st.balance - cappedCommission) * p.leverage / executionPrice
      else cappedSize
    let finalCost :=
      if cappedCost + cappedCommission > st.balance then
        finalSize * executionPrice / p.leverage
      else cappedCost
    let finalCommission :=
      if cappedCost + cappedCommission > st.balance then
        finalCost * p.commissionRate
      else cappedCommission
    if finalSize ≤ 0 then st
    else
      { st with
        inPosition := true
        positionSide := some side
        positionSize := finalSize
        entryPrice := executionPrice
        stopLoss := stopLossPrice
        takeProfit := takeProfitPrice
        balance := st.balance - finalCommission
        trades := st.trades ++
          [.entry ⟨side, executionPrice, price, slip * 100, finalSize,
                   finalCost, finalCommission, st.balance - finalCommission,
                   stopLossPrice, takeProfitPrice⟩] }

/-- `Backtester.check_stop_loss_take_profit` (backtest.py lines 278-298):
returns the Python return value together with the updated state. -/
def checkStopLossTakeProfit (p : BTParams) (slip high low : ℚ)
    (st : BTState) : Bool × BTState :=
  if st.inPosition = false then (false, st)
  else
    match st.positionSide with
    | some .buy =>
      if low ≤ st.stopLoss then
        (true, exitPosition p slip st.stopLoss "stop_loss" st)
      else if high ≥ st.takeProfit then
        (true, exitPosition p slip st.takeProfit "take_profit" st)
      else (false, st)
    | _ =>
      if high ≥ st.stopLoss then
        (true, exitPosition p slip st.stopLoss "stop_loss" st)
      else if low ≤ st.takeProfit then
        (true, exitPosition p slip st.takeProfit "take_profit" st)
      else (false, st)

/-- `Backtester.update_equity` (backtest.py lines 255-276): appends the
current equity (balance plus unrealized PnL net of estimated closing
commission) to the equity curve. -/
def updateEquity (p : BTParams) (price : ℚ) (st : BTState) : BTState :=
  let equity :=
    if st.inPosition then
      let unrealized :=
        match st.positionSide with
        | some .buy => (price - st.entryPrice) * st.positionSize
        | _ => (st.entryPrice - price) * st.positionSize
      let cost := st.positionSize * price / p.leverage
      st.balance + (unrealized - cost * p.commissionRate)
    else st.balance
  { st with equityCurve := st.equityCurve ++ [equity] }

/-- The signal-processing block of `Backtester.run` (backtest.py lines
346-360): an opposing signal while in a position first exits with reason
`"signal_reversal"`, then enters afresh.  `slipExit`/`slipEnter` are the
slippage draws of the two transitions. -/
def processSignal (p : BTParams) (signal : Signal) (executeTrade : Bool)
    (slipExit slipEnter close : ℚ) (st : BTState) : BTState :=
  if signal = .buy ∧ executeTrade ∧ (st.inPosition = false ∨ st.positionSide = some .sell) then
    let st1 :=
      if st.inPosition ∧ st.positionSide = some .sell then
        exitPosition p slipExit close "signal_reversal" st
      else st
    enterPosition p slipEnter .buy close none none st1
  else if signal = .sell ∧ executeTrade ∧ (st.inPosition = false ∨ st.positionSide = some .buy) then
    let st1 :=
      if st.inPosition ∧ st.positionSide = some .buy then
        exitPosition p slipExit close "signal_reversal" st
      else st
    enterPosition p slipEnter .sell close none none st1
  else st

/-- One iteration of the candle loop of `Backtester.run` (backtest.py lines
321-363): while in a position the stop/target check runs first, and when it
triggers the candle's signal is never consulted (the loop `continue`s after
updating equity). -/
def runCandleStep (p : BTParams) (signal : Signal) (executeTrade : Bool)
    (slipCheck slipExit slipEnter high low close : ℚ) (st : BTState) : BTState :=
  if st.inPosition then
    let r := checkStopLossTakeProfit p slipCheck high low st
    if r.1 then updateEquity p close r.2
    else updateEquity p close (processSignal p signal executeTrade slipExit slipEnter close st)
  else updateEquity p close (processSignal p signal executeTrade slipExit slipEnter close st)

/-- Outcome of `Backtester.generate_results` (backtest.py lines 404-437)
restricted to the plausibility-clamp logic; `originalReturn` and
`originalBalance` are `none` when the corresponding attribute is never set. -/
structure ResultsCore where
  totalReturn : ℚ
  finalBalance : ℚ
  realityCheckApplied : Bool
  originalReturn : Option ℚ
  originalBalance : Option ℚ
deriving DecidableEq

/-- The reality-check portion of `Backtester.generate_results` (backtest.py
lines 404-437) as a function of the final balance, the initial balance, the
number of winning trades and the number of days in the backtest period.
In the degenerate branch Python assigns `self.original_return = total_return`
only after `total_return` has already been overwritten with `-10.0`. -/
def generateResultsCore (initialBalance balance : ℚ) (winningTrades : ℕ)
    (daysInBacktest : ℚ) : ResultsCore :=
  let totalReturn := (balance - initialBalance) / initialBalance * 100
  if winningTrades = 0 ∧ totalReturn > 0 then
    let clampedReturn := (-10 : ℚ)
    { totalReturn := clampedReturn
      finalBalance := initialBalance * (1 + clampedReturn / 100)
      realityCheckApplied := true
      originalReturn := some clampedReturn
      originalBalance := none }
  else
    let maxRealisticReturn := 300 * (daysInBacktest / 30)
    if totalReturn > maxRealisticReturn then
      { totalReturn := maxRealisticReturn
        finalBalance := initialBalance * (1 + maxRealisticReturn / 100)
        realityCheckApplied := true
        originalReturn := some totalReturn
        originalBalance := some balance }
    else
      { totalReturn := totalReturn
        finalBalance := balance
        realityCheckApplied := false
        originalReturn := none
        originalBalance := none }

/-- The position data used by the trailing adjustments
(`get_position_info` fields `position_amount` and `entry_price`). -/
structure PositionInfo where
  positionAmount : ℚ
  entryPrice : ℚ
deriving DecidableEq

/-- `RiskManager.calculate_stop_loss` (risk_manager.py lines 119-136). -/
def calculateStopLoss (useStopLoss : Bool) (stopLossPct : ℚ) (side : Side)
    (entryPrice : ℚ) (pricePrecision : ℕ) : Option ℚ :=
  if useStopLoss = false then none
  else
    let stopPrice :=
      match side with
      | .buy => entryPrice * (1 - stopLossPct)
      | .sell => entryPrice * (1 + stopLossPct)
    some (pyRound stopPrice pricePrecision)

/-- `RiskManager.calculate_take_profit` (risk_manager.py lines 138-155). -/
def calculateTakeProfit (useTakeProfit : Bool) (takeProfitPct : ℚ) (side : Side)
    (entryPrice : ℚ) (pricePrecision : ℕ) : Option ℚ :=
  if useTakeProfit = false then none
  else
    let takeProfitPrice :=
      match side with
      | .buy => entryPrice * (1 + takeProfitPct)
      | .sell => entryPrice * (1 - takeProfitPct)
    some (pyRound takeProfitPrice pricePrecision)

/-- `RiskManager.adjust_stop_loss_for_trailing` (risk_manager.py lines
157-191).  The candidate `current_price * (1 ∓ TRAILING_STOP_PCT)` is
compared against `calculate_stop_loss(symbol, side, entry_price)` — the stop
recomputed from the entry price, not a previously accepted trailing stop.
A `current_stop` of `None` or `0` is falsy, skipping the comparison. -/
def adjustStopLossForTrailing (trailingStop : Bool) (trailingStopPct : ℚ)
    (useStopLoss : Bool) (stopLossPct : ℚ) (side : Side) (currentPrice : ℚ)
    (positionInfo : Option PositionInfo) (pricePrecision : ℕ) : Option ℚ :=
  if trailingStop = false then none
  else
    match positionInfo with
    | none => none
    | some pi =>
      if |pi.positionAmount| = 0 then none
      else
        let newStop :=
          match side with
          | .buy => currentPrice * (1 - trailingStopPct)
          | .sell => currentPrice * (1 + trailingStopPct)
        let currentStop :=
          calculateStopLoss useStopLoss stopLossPct side pi.entryPrice pricePrecision
        match currentStop, side with
        | some c, .buy =>
          if c ≠ 0 ∧ newStop ≤ c then none
          else some (pyRound newStop pricePrecision)
        | some c, .sell =>
          if c ≠ 0 ∧ newStop ≥ c then none
          else some (pyRound newStop pricePrecision)
        | none, _ => some (pyRound newStop pricePrecision)

/-- `RiskManager.adjust_take_profit_for_trailing` (risk_manager.py lines
193-264).  `existingTakeProfit` is the `stopPrice` of the working
`TAKE_PROFIT_MARKET` order found among the open orders (`none` when there is
no such order; `0` is falsy).  Note that the short branch, like the long
branch, returns the candidate only when it is strictly GREATER than the
existing take profit (source line 260 uses `>`). -/
def adjustTakeProfitForTrailing (useTakeProfit trailingTakeProfit : Bool)
    (trailingTakeProfitPct : ℚ) (side : Side) (currentPrice : ℚ)
    (positionInfo : Option PositionInfo) (pricePrecision : ℕ)
    (existingTakeProfit : Option ℚ) : Option ℚ :=
  if useTakeProfit = false ∨ trailingTakeProfit = false then none
  else
    match positionInfo with
    | none => none
    | some pi =>
      if pi.entryPrice ≤ 0 then none
      else
        match side with
        | .buy =>
          let currentTakeProfit :=
            floorTo (currentPrice * (1 + trailingTakeProfitPct)) pricePrecision
          match existingTakeProfit with
          | none => some currentTakeProfit
          | some e =>
            if e = 0 then some currentTakeProfit
            else if currentTakeProfit > e then some currentTakeProfit
            else none
        | .sell =>
          let currentTakeProfit :=
            ceilTo (currentPrice * (1 - trailingTakeProfitPct)) pricePrecision
          match existingTakeProfit with
          | none => some currentTakeProfit
          | some e =>
            if e = 0 then some currentTakeProfit
            else if currentTakeProfit > e then some currentTakeProfit
            else none

/-- The balance-tracking state of `RiskManager`. -/
structure RMState where
  initialBalance : Option ℚ
  lastKnownBalance : Option ℚ
deriving DecidableEq

/-- `RiskManager.update_balance_for_compounding` (risk_manager.py lines
266-288): returns the updated tracking state and the Python return value.
The reinvest amount `profit * COMPOUND_REINVEST_PERCENT` is only logged. -/
def updateBalanceForCompounding (autoCompound : Bool) (currentBalance : ℚ)
    (st : RMState) : RMState × Bool :=
  if autoCompound = false then (st, false)
  else
    match st.lastKnownBalance with
    | none => ({ initialBalance := some currentBalance,
                 lastKnownBalance := some currentBalance }, false)
    | some lkb =>
      if currentBalance - lkb > 0 then
        ({ st with lastKnownBalance := some currentBalance }, true)
      else (st, false)

/-- An order placed through the Binance client in `check_for_signals`. -/
inductive OrderAction
| market (side : Side) (qty : ℚ)
| stopLossOrder (side : Side) (qty price : ℚ)
| takeProfitOrder (side : Side) (qty price : ℚ)
deriving DecidableEq

/-- The order flow of the signal block of `main.check_for_signals`
(main.py lines 621-675) as the list of orders placed, given the strategy
signal, the current signed position amount, the outcome of
`should_open_position`, whether the entry market order succeeds, the account
balance and the configuration.  A reversal first places a closing market
order for the absolute position size, then sizes the fresh entry
independently. -/
def checkForSignalsActions (signal : Signal) (positionAmount : ℚ)
    (shouldOpen entryOrderOk : Bool) (balance riskPerTrade : ℚ)
    (useStopLoss : Bool) (stopLossPct : ℚ) (useTakeProfit : Bool)
    (takeProfitPct : ℚ) (currentPrice leverage : ℚ)
    (info : SymbolInfo) : List OrderAction :=
  let entryFlow : Side → Side → List OrderAction := fun side oppositeSide =>
    if shouldOpen then
      let stopLossPrice :=
        calculateStopLoss useStopLoss stopLossPct side currentPrice info.pricePrecision
      let quantity := riskCalculatePositionSize balance riskPerTrade useStopLoss
        currentPrice stopLossPrice leverage info
      if quantity > 0 then
        [.market side quantity] ++
        (if entryOrderOk then
          (match stopLossPrice with
           | some s => [.stopLossOrder oppositeSide quantity s]
           | none => []) ++
          (match calculateTakeProfit useTakeProfit takeProfitPct side currentPrice
              info.pricePrecision with
           | some t => [.takeProfitOrder oppositeSide quantity t]
           | none => [])
         else [])
      else []
    else []
  match signal with
  | .buy =>
    if positionAmount ≤ 0 then
      (if positionAmount < 0 then [.market .buy |positionAmount|] else []) ++
      entryFlow .buy .sell
    else []
  | .sell =>
    if positionAmount ≥ 0 then
      (if positionAmount > 0 then [.market .sell positionAmount] else []) ++
      entryFlow .sell .buy
    else []
  | .hold => []

/-- A timestamp field of the persisted state JSON: either a string
`datetime.fromisoformat` accepts, or one on which it raises `ValueError`. -/
inductive TsField
| valid
| malformed
deriving DecidableEq

/-- The persisted state file as `load_state` distinguishes it: absent or
empty, unparseable JSON (`json.load` raises `JSONDecodeError`), or parsed
JSON with the optional `last_trade_time` / `last_report_time` fields
(`none` models an absent or falsy field). -/
inductive StateFile
| missingOrEmpty
| notJson
| json (lastTradeTime lastReportTime : Option TsField)
deriving DecidableEq

/-- The observable outcome of `main.load_state`: a normal return (`fresh`
tells whether `None` was returned, `backedUp` whether the corrupted file was
renamed to a timestamped backup) or an uncaught exception. -/
inductive LoadOutcome
| ok (fresh backedUp : Bool)
| raised (exn : String)
deriving DecidableEq

/-- `main.load_state` (main.py lines 992-1021): only `json.JSONDecodeError`
is caught; `datetime.fromisoformat` on a malformed timestamp raises
`ValueError`, which propagates out of the function. -/
def loadState : StateFile → LoadOutcome
| .missingOrEmpty => .ok true false
| .notJson => .ok true true
| .json lastTradeTime lastReportTime =>
  if lastTradeTime = some .malformed then .raised "ValueError"
  else if lastReportTime = some .malformed then .raised "ValueError"
  else .ok false false

/-- Default-configuration backtest parameters: 3% risk per trade, 2.5% stop
loss, 8% take profit, zero commission, 20x leverage, compounding off. -/
def scenarioParams : BTParams := ⟨3/100, 25/1000, 8/100, 0, 20, false, 3/4⟩

/-- Parameters with auto-compounding enabled, 1x leverage, 75% reinvest. -/
def compoundParams : BTParams := ⟨3/100, 25/1000, 8/100, 0, 1, true, 3/4⟩

/-- Same as `compoundParams` but with auto-compounding disabled. -/
def plainParams : BTParams := ⟨3/100, 25/1000, 8/100, 0, 1, false, 3/4⟩

/-- An open long position: entry 100, size 1, stop 97, target 110,
balance 50. -/
def longState : BTState := ⟨50, true, some .buy, 1, 100, 97, 110, [], 0, 0, 0, 0, []⟩

/-- An open short position of size 5: entry 100, stop 103, target 92,
balance 50. -/
def shortState : BTState := ⟨50, true, some .sell, 5, 100, 103, 92, [], 0, 0, 0, 0, []⟩

theorem btCalculatePositionSize_of_stop (b r lev price sp : ℚ) (hsp : sp ≠ 0)
    (hrpu : 0 < |price - sp|) :
    btCalculatePositionSize b r lev price (some sp) =
      if b * r * lev / |price - sp| * price / lev > b * (1/2) then
        b * (1/2) * lev / price
      else b * r * lev / |price - sp| := by
  simp only [btCalculatePositionSize]
  rw [if_neg hsp, if_neg (not_le.mpr hrpu)]

theorem riskCalculatePositionSize_of_stop (b r price sl lev : ℚ) (info : SymbolInfo)
    (hb : 0 < b) (hsl : sl ≠ 0) (hrpu : 0 < |price - sl|) :
    riskCalculatePositionSize b r true price (some sl) lev info =
      if roundStepSize (b * r / |price - sl|) info.stepPrecision * price < info.minNotional then
        if info.minNotional / price ≤ b * r / |price - sl| then
          ceilTo (info.minNotional / price) info.quantityPrecision
        else 0
      else roundStepSize (b * r / |price - sl|) info.stepPrecision := by
  simp only [riskCalculatePositionSize]
  rw [if_neg (not_le.mpr hb), if_neg hsl, if_neg (not_le.mpr hrpu)]

theorem scenarioA_bt_eval :
    btCalculatePositionSize 50 (3/100) 20 100 (some (195/2)) = 5 := by
  norm_num [btCalculatePositionSize, abs_of_pos]

theorem scenarioA_risk_eval :
    riskCalculatePositionSize 50 (3/100) true 100 (some (195/2)) 20 ⟨1, 1, 5, 1⟩ = 3/5 := by
  norm_num [riskCalculatePositionSize, roundStepSize, abs_of_pos]

theorem minNotional_bump_eval :
    riskCalculatePositionSize 10 (11/100) true 10 (some (49/5)) 1 ⟨0, 0, 55, 1⟩ = 6 := by
  norm_num [riskCalculatePositionSize, roundStepSize, ceilTo, abs_of_pos]
  rw [show ⌈(11/2 : ℚ)⌉ = 6 by rw [Int.ceil_eq_iff]; norm_num]
  norm_num

theorem tightStop_risk_eval :
    riskCalculatePositionSize 50 (3/100) true 100 (some (999/10)) 20 ⟨1, 1, 5, 1⟩ = 15 := by
  norm_num [riskCalculatePositionSize, roundStepSize, abs_of_pos]

theorem exitPosition_trades_buy (p : BTParams) (slip price : ℚ) (r : String)
    (st : BTState) (hin : st.inPosition = true) (hside : st.positionSide = some .buy) :
    ∃ e : ExitRec, (exitPosition p slip price r st).trades = st.trades ++ [.exit e] ∧
      e.reason = r ∧ e.intendedPrice = price ∧ e.price = price * (1 - slip) ∧
      e.size = st.positionSize := by
  simp only [exitPosition, hin, hside]
  norm_num

theorem exitPosition_trades_sell (p : BTParams) (slip price : ℚ) (r : String)
    (st : BTState) (hin : st.inPosition = true) (hside : st.positionSide = some .sell) :
    ∃ e : ExitRec, (exitPosition p slip price r st).trades = st.trades ++ [.exit e] ∧
      e.reason = r ∧ e.intendedPrice = price ∧ e.price = price * (1 + slip) ∧
      e.size = st.positionSize := by
  simp only [exitPosition, hin, hside]
  norm_num

theorem exitPosition_not_inPosition (p : BTParams) (slip price : ℚ) (r : String)
    (st : BTState) (hin : st.inPosition = true) :
    (exitPosition p slip price r st).inPosition = false := by
  simp only [exitPosition, hin]
  norm_num

theorem enterPosition_trades (p : BTParams) (slip : ℚ) (side : Side) (price : ℚ)
    (slOpt tpOpt : Option ℚ) (st : BTState) (h : st.inPosition = false) :
    (enterPosition p slip side price slOpt tpOpt st).trades = st.trades ∨
    ∃ e : EntryRec, (enterPosition p slip side price slOpt tpOpt st).trades =
      st.trades ++ [.entry e] ∧ e.side = side := by
  simp only [enterPosition, h]
  norm_num
  split_ifs
  all_goals first
    | exact Or.inl rfl
    | exact Or.inr ⟨_, rfl, rfl⟩

theorem checkStopLossTakeProfit_buy_stop (p : BTParams) (slip high low : ℚ)
    (st : BTState) (hin : st.inPosition = true) (hside : st.positionSide = some .buy)
    (hlow : low ≤ st.stopLoss) :
    checkStopLossTakeProfit p slip high low st =
      (true, exitPosition p slip st.stopLoss "stop_loss" st) := by
  simp [checkStopLossTakeProfit, hin, hside, hlow]

theorem checkStopLossTakeProfit_buy_target (p : BTParams) (slip high low : ℚ)
    (st : BTState) (hin : st.inPosition = true) (hside : st.positionSide = some .buy)
    (hlow : ¬ low ≤ st.stopLoss) (hhigh : high ≥ st.takeProfit) :
    checkStopLossTakeProfit p slip high low st =
      (true, exitPosition p slip st.takeProfit "take_profit" st) := by
  simp [checkStopLossTakeProfit, hin, hside, hlow, hhigh]

theorem checkStopLossTakeProfit_sell_stop (p : BTParams) (slip high low : ℚ)
    (st : BTState) (hin : st.inPosition = true) (hside : st.positionSide = some .sell)
    (hhigh : high ≥ st.stopLoss) :
    checkStopLossTakeProfit p slip high low st =
      (true, exitPosition p slip st.stopLoss "stop_loss" st) := by
  simp [checkStopLossTakeProfit, hin, hside, hhigh]

theorem checkStopLossTakeProfit_sell_target (p : BTParams) (slip high low : ℚ)
    (st : BTState) (hin : st.inPosition = true) (hside : st.positionSide = some .sell)
    (hhigh : ¬ high ≥ st.stopLoss) (hlow : low ≤ st.takeProfit) :
    checkStopLossTakeProfit p slip high low st =
      (true, exitPosition p slip st.takeProfit "take_profit" st) := by
  simp [checkStopLossTakeProfit, hin, hside, hhigh, hlow]

/-- C1 (amended): with a stop price, the backtest sizer computes
`rawQty = riskAmount · leverage / perUnitRisk` (before its 50% exposure cap);
the live `RiskManager` sizer omits the leverage factor — its result does not
depend on leverage at all — and in Scenario A it yields `0.6`, while the
backtest sizer's raw quantity 12 is cut to 5 by the exposure cap. -/
theorem claim_C1 (b r lev lev₂ price sp : ℚ) (info : SymbolInfo)
    (hb : 0 < b) (hsp : sp ≠ 0) (hrpu : 0 < |price - sp|)
    (hcap : ¬ b * r * lev / |price - sp| * price / lev > b * (1/2)) :
    btCalculatePositionSize b r lev price (some sp) = b * r * lev / |price - sp| ∧
    riskCalculatePositionSize b r true price (some sp) lev info =
      riskCalculatePositionSize b r true price (some sp) lev₂ info ∧
    btCalculatePositionSize 50 (3/100) 20 100 (some (195/2)) = 5 ∧
    riskCalculatePositionSize 50 (3/100) true 100 (some (195/2)) 20 ⟨1, 1, 5, 1⟩ = 3/5 := by
  refine ⟨?_, ?_, scenarioA_bt_eval, scenarioA_risk_eval⟩
  · rw [btCalculatePositionSize_of_stop b r lev price sp hsp hrpu, if_neg hcap]
  · rw [riskCalculatePositionSize_of_stop b r price sp lev info hb hsp hrpu,
        riskCalculatePositionSize_of_stop b r price sp lev₂ info hb hsp hrpu]

/-- C1 witness: a concrete instance of `claim_C1` where the cap does not
bind. -/
theorem claim_C1_instance :
    (¬ (50 : ℚ) * (3/100) * 1 / |100 - 50| * 100 / 1 > 50 * (1/2)) ∧
    btCalculatePositionSize 50 (3/100) 1 100 (some 50) =
      50 * (3/100) * 1 / |(100 : ℚ) - 50| :=
  ⟨by norm_num, (claim_C1 50 (3/100) 1 7 100 50 ⟨1, 1, 5, 1⟩ (by norm_num)
    (by norm_num) (by norm_num) (by norm_num)).1⟩

/-- C1 counterexample: in Scenario A the live `RiskManager` sizer returns
`0.6`, not the claimed `12 = riskAmount × leverage / perUnitRisk` (the
rounding and min-notional steps leave `0.6` unchanged since `0.6 × 100 ≥ 5`,
so the discrepancy is the missing leverage factor). -/
theorem claim_C1_refuted :
    riskCalculatePositionSize 50 (3/100) true 100 (some (195/2)) 20 ⟨1, 1, 5, 1⟩ = 3/5 ∧
    (3/5 : ℚ) ≠ 12 :=
  ⟨scenarioA_risk_eval, by norm_num⟩

/-- C2 (amended): the backtest sizer's quantity always satisfies
`quantity × price / leverage ≤ 0.5 × balance`; no such bound holds for the
live `RiskManager` sizer, which applies no exposure cap. -/
theorem claim_C2 (b r lev price : ℚ) (sp : Option ℚ)
    (hb : 0 < b) (hp : 0 < price) (hlev : 0 < lev) :
    btCalculatePositionSize b r lev price sp * price / lev ≤ b * (1/2) := by
  have hp' : price ≠ 0 := ne_of_gt hp
  have hlev' : lev ≠ 0 := ne_of_gt hlev
  have hcap : b * (1/2) * lev / price * price / lev = b * (1/2) := by
    field_simp
    ring
  have hb2 : (0 : ℚ) ≤ b * (1/2) := by nlinarith
  simp only [btCalculatePositionSize]
  cases sp with
  | none =>
    dsimp only
    split_ifs with h
    · rw [hcap]
    · exact le_of_not_lt h
  | some s =>
    dsimp only
    split_ifs with h1 h2 h3 h4
    · rw [hcap]
    · exact le_of_not_lt h2
    · simpa using hb2
    · rw [hcap]
    · exact le_of_not_lt h4

/-- C2 witness: a concrete instance of `claim_C2`. -/
theorem claim_C2_instance :
    (0 : ℚ) < 50 ∧
    btCalculatePositionSize 50 (3/100) 20 100 (some (195/2)) * 100 / 20 ≤ 50 * (1/2) :=
  ⟨by norm_num, claim_C2 50 (3/100) 20 100 (some (195/2)) (by norm_num)
    (by norm_num) (by norm_num)⟩

/-- C2 counterexample: with balance 50, risk 3% ∈ (0,1], leverage 20 ≥ 1,
price 100 and stop 99.9, the live `RiskManager` sizer returns 15, whose
margin `15 × 100 / 20 = 75` exceeds the 50% cap (25), the 20% cap (10), and
even the whole balance. -/
theorem claim_C2_refuted :
    riskCalculatePositionSize 50 (3/100) true 100 (some (999/10)) 20 ⟨1, 1, 5, 1⟩ = 15 ∧
    ¬ ((15 : ℚ) * 100 / 20 ≤ 50 * (1/2)) ∧
    ¬ ((15 : ℚ) * 100 / 20 ≤ 50 * (1/5)) :=
  ⟨tightStop_risk_eval, by norm_num, by norm_num⟩

/-- C7 (amended): when the rounded-down quantity falls below the minimum
notional, the live sizer bumps it up to
`ceil(min_notional/price · 10^qp)/10^qp` whenever `min_notional/price` does
not exceed the raw (unrounded) risk-based quantity, and otherwise returns 0;
no exposure-cap or balance/commission check is involved, so the bumped
quantity's cost can exceed the balance (concrete instance: quantity 6 at
price 10 on a balance of 10). -/
theorem claim_C7 (b r price sl lev : ℚ) (info : SymbolInfo)
    (hb : 0 < b) (hsl : sl ≠ 0) (hrpu : 0 < |price - sl|)
    (hlow : roundStepSize (b * r / |price - sl|) info.stepPrecision * price <
      info.minNotional) :
    riskCalculatePositionSize b r true price (some sl) lev info =
      (if info.minNotional / price ≤ b * r / |price - sl| then
        ceilTo (info.minNotional / price) info.quantityPrecision
      else 0) ∧
    riskCalculatePositionSize 10 (11/100) true 10 (some (49/5)) 1 ⟨0, 0, 55, 1⟩ = 6 ∧
    ¬ ((6 : ℚ) * 10 ≤ 10) := by
  refine ⟨?_, minNotional_bump_eval, by norm_num⟩
  rw [riskCalculatePositionSize_of_stop b r price sl lev info hb hsl hrpu,
    if_pos hlow]

/-- C7 witness: a concrete instance of `claim_C7` in the bump branch. -/
theorem claim_C7_instance :
    roundStepSize ((10 : ℚ) * (11/100) / |10 - 49/5|) 0 * 10 < 55 ∧
    riskCalculatePositionSize 10 (11/100) true 10 (some (49/5)) 1 ⟨0, 0, 55, 1⟩ =
      (if (55 : ℚ) / 10 ≤ 10 * (11/100) / |(10 : ℚ) - 49/5| then
        ceilTo ((55 : ℚ) / 10) 0
      else 0) :=
  ⟨by norm_num [roundStepSize, abs_of_pos], (claim_C7 10 (11/100) 10 (49/5) 1 ⟨0, 0, 55, 1⟩
    (by norm_num) (by norm_num) (by norm_num) (by norm_num [roundStepSize, abs_of_pos])).1⟩

/-- C7 counterexample: the sizer returns the bumped quantity 6 even though
its cost `6 × 10 = 60` does not fit within the available balance 10 (nor any
exposure cap), where the claim requires it to fail with 0. -/
theorem claim_C7_refuted :
    riskCalculatePositionSize 10 (11/100) true 10 (some (49/5)) 1 ⟨0, 0, 55, 1⟩ = 6 ∧
    ¬ ((6 : ℚ) * 10 ≤ 10) :=
  ⟨minNotional_bump_eval, by norm_num⟩

/-- C3 (code bug exhibited): with an 8% trailing take profit, price
precision 2, a short position (entry 110, amount −5) and current price 100,
the candidate take profit is 92.  Against a working take-profit order at 95
the candidate is strictly better for a short (92 < 95), yet the function
returns `none`; against a working order at 80 the candidate is strictly
worse (higher), yet the function returns it — the short branch compares with
`>` instead of `<`.  Moreover the trailing stop for a long (entry 100, 2.5%
trail) returns 107.25 at price 110 and then 102.375 at price 105: the
returned stop decreased, because the candidate is compared against the stop
recomputed from the entry price rather than against the working stop. -/
theorem claim_C3 :
    adjustTakeProfitForTrailing true true (8/100) .sell 100 (some ⟨-5, 110⟩) 2
      (some 95) = none ∧
    adjustTakeProfitForTrailing true true (8/100) .sell 100 (some ⟨-5, 110⟩) 2
      (some 80) = some 92 ∧
    (92 : ℚ) < 95 ∧
    adjustStopLossForTrailing true (25/1000) true (25/1000) .buy 110
      (some ⟨5, 100⟩) 3 = some (429/4) ∧
    adjustStopLossForTrailing true (25/1000) true (25/1000) .buy 105
      (some ⟨5, 100⟩) 3 = some (819/8) ∧
    (819/8 : ℚ) < 429/4 := by
  refine ⟨?_, ?_, by norm_num, ?_, ?_, by norm_num⟩
  · norm_num [adjustTakeProfitForTrailing, ceilTo]
  · norm_num [adjustTakeProfitForTrailing, ceilTo]
  · norm_num [adjustStopLossForTrailing, calculateStopLoss, pyRound, roundHalfEven]
  · norm_num [adjustStopLossForTrailing, calculateStopLoss, pyRound, roundHalfEven]

/-- C4 (code bug exhibited): Scenario D behaves as claimed (500% over 10
days is clamped to 100%, `reality_check_applied` set, original return 500
and original balance 300 preserved), but in the degenerate branch
(0 winning trades, computed return 50% > 0) the clamp to −10% does NOT
preserve the original unscaled return: `original_return` is assigned after
`total_return` has been overwritten, so it records −10 instead of 50. -/
theorem claim_C4 :
    (generateResultsCore 50 300 3 10).totalReturn = 100 ∧
    (generateResultsCore 50 300 3 10).finalBalance = 100 ∧
    (generateResultsCore 50 300 3 10).realityCheckApplied = true ∧
    (generateResultsCore 50 300 3 10).originalReturn = some 500 ∧
    (generateResultsCore 50 300 3 10).originalBalance = some 300 ∧
    (generateResultsCore 100 150 0 10).totalReturn = -10 ∧
    (generateResultsCore 100 150 0 10).realityCheckApplied = true ∧
    (generateResultsCore 100 150 0 10).originalReturn = some (-10) ∧
    some ((-10 : ℚ)) ≠ some (((150 : ℚ) - 100) / 100 * 100) := by
  refine ⟨?_, ?_, ?_, ?_, ?_, ?_, ?_, ?_, by norm_num⟩
  all_goals norm_num [generateResultsCore]

/-- C9 (amended): `load_state` returns fresh state with a timestamped backup
for unparseable JSON, fresh state without backup for a missing or empty
file, and the loaded state when the timestamp fields parse; but valid JSON
with a malformed timestamp field raises `ValueError` out of `load_state`. -/
theorem claim_C9 (ltt lrt : Option TsField)
    (h1 : ltt ≠ some .malformed) (h2 : lrt ≠ some .malformed) :
    loadState (.json ltt lrt) = .ok false false ∧
    loadState .notJson = .ok true true ∧
    loadState .missingOrEmpty = .ok true false ∧
    loadState (.json (some .malformed) lrt) = .raised "ValueError" := by
  refine ⟨?_, rfl, rfl, ?_⟩
  · simp [loadState, h1, h2]
  · simp [loadState]

/-- C9 witness: a concrete instance of `claim_C9`. -/
theorem claim_C9_instance :
    (some TsField.valid ≠ some TsField.malformed) ∧
    (loadState (.json (some .valid) none) = .ok false false ∧
     loadState .notJson = .ok true true ∧
     loadState .missingOrEmpty = .ok true false ∧
     loadState (.json (some .malformed) none) = .raised "ValueError") :=
  ⟨by decide, claim_C9 (some .valid) none (by decide) (by decide)⟩

/-- C9 counterexample: a state file that is valid JSON but has a malformed
`last_trade_time` makes `load_state` raise `ValueError` — it does not return
fresh state, contradicting the claim that `load_state` never raises on a bad
state file. -/
theorem claim_C9_refuted :
    loadState (.json (some .malformed) none) = .raised "ValueError" ∧
    LoadOutcome.raised "ValueError" ≠ .ok true true := by
  refine ⟨by simp [loadState], by simp⟩

/-- C5: while a position is open, the candle's high/low are checked against
the stop/target before any new signal is processed — when the check
triggers, the candle step does not depend on the signal, the
execute-probability draw, or the entry slippages — and the triggered exit
appends a ledger record with the matching reason whose pre-slippage
(`intended_price`) is exactly the stop (or target) price, the execution
price differing only by the slippage factor. -/
theorem claim_C5 (p : BTParams) (slip high low close sx se sx₂ se₂ : ℚ)
    (st : BTState) (sig sig₂ : Signal) (et et₂ : Bool)
    (hin : st.inPosition = true) :
    (st.positionSide = some .buy → low ≤ st.stopLoss →
      (checkStopLossTakeProfit p slip high low st).1 = true ∧
      ∃ e : ExitRec, (checkStopLossTakeProfit p slip high low st).2.trades =
        st.trades ++ [.exit e] ∧ e.reason = "stop_loss" ∧
        e.intendedPrice = st.stopLoss ∧ e.price = st.stopLoss * (1 - slip)) ∧
    (st.positionSide = some .buy → ¬ low ≤ st.stopLoss → high ≥ st.takeProfit →
      (checkStopLossTakeProfit p slip high low st).1 = true ∧
      ∃ e : ExitRec, (checkStopLossTakeProfit p slip high low st).2.trades =
        st.trades ++ [.exit e] ∧ e.reason = "take_profit" ∧
        e.intendedPrice = st.takeProfit ∧ e.price = st.takeProfit * (1 - slip)) ∧
    (st.positionSide = some .sell → high ≥ st.stopLoss →
      (checkStopLossTakeProfit p slip high low st).1 = true ∧
      ∃ e : ExitRec, (checkStopLossTakeProfit p slip high low st).2.trades =
        st.trades ++ [.exit e] ∧ e.reason = "stop_loss" ∧
        e.intendedPrice = st.stopLoss ∧ e.price = st.stopLoss * (1 + slip)) ∧
    (st.positionSide = some .sell → ¬ high ≥ st.stopLoss → low ≤ st.takeProfit →
      (checkStopLossTakeProfit p slip high low st).1 = true ∧
      ∃ e : ExitRec, (checkStopLossTakeProfit p slip high low st).2.trades =
        st.trades ++ [.exit e] ∧ e.reason = "take_profit" ∧
        e.intendedPrice = st.takeProfit ∧ e.price = st.takeProfit * (1 + slip)) ∧
    ((checkStopLossTakeProfit p slip high low st).1 = true →
      runCandleStep p sig et slip sx se high low close st =
      runCandleStep p sig₂ et₂ slip sx₂ se₂ high low close st) := by
  refine ⟨?_, ?_, ?_, ?_, ?_⟩
  · intro hside hlow
    rw [checkStopLossTakeProfit_buy_stop p slip high low st hin hside hlow]
    obtain ⟨e, h1, h2, h3, h4, _⟩ :=
      exitPosition_trades_buy p slip st.stopLoss "stop_loss" st hin hside
    exact ⟨rfl, e, h1, h2, h3, h4⟩
  · intro hside hlow hhigh
    rw [checkStopLossTakeProfit_buy_target p slip high low st hin hside hlow hhigh]
    obtain ⟨e, h1, h2, h3, h4, _⟩ :=
      exitPosition_trades_buy p slip st.takeProfit "take_profit" st hin hside
    exact ⟨rfl, e, h1, h2, h3, h4⟩
  · intro hside hhigh
    rw [checkStopLossTakeProfit_sell_stop p slip high low st hin hside hhigh]
    obtain ⟨e, h1, h2, h3, h4, _⟩ :=
      exitPosition_trades_sell p slip st.stopLoss "stop_loss" st hin hside
    exact ⟨rfl, e, h1, h2, h3, h4⟩
  · intro hside hhigh hlow
    rw [checkStopLossTakeProfit_sell_target p slip high low st hin hside hhigh hlow]
    obtain ⟨e, h1, h2, h3, h4, _⟩ :=
      exitPosition_trades_sell p slip st.takeProfit "take_profit" st hin hside
    exact ⟨rfl, e, h1, h2, h3, h4⟩
  · intro htrig
    simp [runCandleStep, hin, htrig]

/-- C5 witness: Scenario B — a long entered at 100 with stop 97 and target
110 meets a candle with low 96: the check fires, the exit record carries
reason `"stop_loss"` and pre-slippage price exactly 97. -/
theorem claim_C5_instance :
    longState.inPosition = true ∧
    (checkStopLossTakeProfit scenarioParams 0 99 96 longState).1 = true ∧
    runCandleStep scenarioParams .buy true 0 0 1 99 96 98 longState =
      runCandleStep scenarioParams .sell false 0 2 3 99 96 98 longState :=
  ⟨rfl,
   ((claim_C5 scenarioParams 0 99 96 98 0 1 2 3 longState .buy .sell true false
      rfl).1 rfl (by norm_num [longState])).1,
   (claim_C5 scenarioParams 0 99 96 98 0 1 2 3 longState .buy .sell true false
      rfl).2.2.2.2
     (((claim_C5 scenarioParams 0 99 96 98 0 1 2 3 longState .buy .sell true false
        rfl).1 rfl (by norm_num [longState])).1)⟩

/-- C10 (implicit): when one candle triggers both the stop and the target of
the open position (long: `low ≤ stop` and `high ≥ target`; short:
`high ≥ stop` and `low ≤ target`), the exit is recorded as a stop loss at
the stop price — the stop branch is evaluated first. -/
theorem claim_C10 (p : BTParams) (slip high low : ℚ) (st : BTState)
    (hin : st.inPosition = true) :
    (st.positionSide = some .buy → low ≤ st.stopLoss → high ≥ st.takeProfit →
      (checkStopLossTakeProfit p slip high low st).2.trades.map TradeRec.reasonOf =
        st.trades.map TradeRec.reasonOf ++ [some "stop_loss"] ∧
      (checkStopLossTakeProfit p slip high low st).2.trades.map TradeRec.intendedOf =
        st.trades.map TradeRec.intendedOf ++ [some st.stopLoss]) ∧
    (st.positionSide = some .sell → high ≥ st.stopLoss → low ≤ st.takeProfit →
      (checkStopLossTakeProfit p slip high low st).2.trades.map TradeRec.reasonOf =
        st.trades.map TradeRec.reasonOf ++ [some "stop_loss"] ∧
      (checkStopLossTakeProfit p slip high low st).2.trades.map TradeRec.intendedOf =
        st.trades.map TradeRec.intendedOf ++ [some st.stopLoss]) := by
  constructor
  · intro hside hlow _
    rw [checkStopLossTakeProfit_buy_stop p slip high low st hin hside hlow]
    obtain ⟨e, h1, h2, h3, _, _⟩ :=
      exitPosition_trades_buy p slip st.stopLoss "stop_loss" st hin hside
    rw [h1]
    simp [TradeRec.reasonOf, TradeRec.intendedOf, h2, h3]
  · intro hside hhigh _
    rw [checkStopLossTakeProfit_sell_stop p slip high low st hin hside hhigh]
    obtain ⟨e, h1, h2, h3, _, _⟩ :=
      exitPosition_trades_sell p slip st.stopLoss "stop_loss" st hin hside
    rw [h1]
    simp [TradeRec.reasonOf, TradeRec.intendedOf, h2, h3]

/-- C10 witness: a candle spanning both levels of the open long (low 96 ≤
stop 97, high 120 ≥ target 110) exits as a stop loss at 97. -/
theorem claim_C10_instance :
    longState.inPosition = true ∧
    ((checkStopLossTakeProfit scenarioParams 0 120 96 longState).2.trades.map TradeRec.reasonOf =
      longState.trades.map TradeRec.reasonOf ++ [some "stop_loss"] ∧
     (checkStopLossTakeProfit scenarioParams 0 120 96 longState).2.trades.map TradeRec.intendedOf =
      longState.trades.map TradeRec.intendedOf ++ [some longState.stopLoss]) :=
  ⟨rfl, (claim_C10 scenarioParams 0 120 96 longState rfl).1 rfl
    (by norm_num [longState]) (by norm_num [longState])⟩

/-- C6: on an opposing signal while a position is open, both drivers close
the existing position first and only then evaluate a fresh entry.  In the
backtest a BUY signal over an open short runs
`exit(reason = "signal_reversal")` and then `enter_position`: the reversal
exit appends one ledger record carrying the full short size, the position is
flat in between, and the subsequent entry appends at most one further
(entry) record — never an atomic flip.  In the live path a BUY signal over a
short of size 5 first places a closing market order for the absolute size 5,
and the fresh long entry is a separate market order sized independently
(Scenario C with the default configuration: quantity 0.6, followed by its
own stop-loss and take-profit orders). -/
theorem claim_C6 (p : BTParams) (sx se close : ℚ) (st : BTState)
    (hin : st.inPosition = true) (hside : st.positionSide = some .sell) :
    processSignal p .buy true sx se close st =
      enterPosition p se .buy close none none
        (exitPosition p sx close "signal_reversal" st) ∧
    ((exitPosition p sx close "signal_reversal" st).trades.map TradeRec.reasonOf =
      st.trades.map TradeRec.reasonOf ++ [some "signal_reversal"] ∧
     (exitPosition p sx close "signal_reversal" st).trades.map TradeRec.qtyOf =
      st.trades.map TradeRec.qtyOf ++ [st.positionSize]) ∧
    (exitPosition p sx close "signal_reversal" st).inPosition = false ∧
    (∀ st₂ : BTState, st₂.inPosition = false →
      (enterPosition p se .buy close none none st₂).trades = st₂.trades ∨
      ∃ e : EntryRec, (enterPosition p se .buy close none none st₂).trades =
        st₂.trades ++ [.entry e] ∧ e.side = .buy) ∧
    checkForSignalsActions .buy (-5) true true 50 (3/100) true (25/1000) true
        (8/100) 100 20 ⟨1, 1, 5, 1⟩ =
      [.market .buy 5, .market .buy (3/5), .stopLossOrder .sell (3/5) (195/2),
       .takeProfitOrder .sell (3/5) 108] := by
  refine ⟨?_, ?_, exitPosition_not_inPosition p sx close "signal_reversal" st hin,
    fun st₂ h₂ => enterPosition_trades p se .buy close none none st₂ h₂, ?_⟩
  · simp [processSignal, hin, hside]
  · obtain ⟨e, h1, h2, _, _, h5⟩ :=
      exitPosition_trades_sell p sx close "signal_reversal" st hin hside
    rw [h1]
    simp [TradeRec.reasonOf, TradeRec.qtyOf, h2, h5]
  · have hsl : calculateStopLoss true (25/1000) Side.buy 100 1 = some (195/2) := by
      norm_num [calculateStopLoss, pyRound, roundHalfEven]
    have htp : calculateTakeProfit true (8/100) Side.buy 100 1 = some 108 := by
      norm_num [calculateTakeProfit, pyRound, roundHalfEven]
    simp only [checkForSignalsActions, hsl, scenarioA_risk_eval, htp]
    norm_num

/-- C6 witness: a concrete instance of `claim_C6` — the reversal exit of the
open short of size 5 appends one `"signal_reversal"` ledger record of
size 5. -/
theorem claim_C6_instance :
    shortState.inPosition = true ∧
    ((exitPosition scenarioParams 0 98 "signal_reversal" shortState).trades.map TradeRec.reasonOf =
      shortState.trades.map TradeRec.reasonOf ++ [some "signal_reversal"] ∧
     (exitPosition scenarioParams 0 98 "signal_reversal" shortState).trades.map TradeRec.qtyOf =
      shortState.trades.map TradeRec.qtyOf ++ [shortState.positionSize]) :=
  ⟨rfl, (claim_C6 scenarioParams 0 0 98 shortState rfl rfl).2.1⟩

/-- C8 (amended): the live `RiskManager` compounding observation only
updates the balance-tracking state (the reinvest amount is merely logged,
and the tracked initial balance is untouched once set), but in the backtest
the reinvested fraction is NOT merely informational: on a profitable exit
with auto-compounding enabled the post-exit balance is
`pre + position_value + pnl·(1 − reinvestFraction)` — the reinvested share
of the profit is withheld — whereas with compounding disabled it is
`pre + position_value + pnl`. -/
theorem claim_C8 (p : BTParams) (slip price : ℚ) (r : String) (st : BTState)
    (hin : st.inPosition = true) (hside : st.positionSide = some .buy)
    (hpnl : 0 < (price * (1 - slip) - st.entryPrice) * st.positionSize -
      st.positionSize * (price * (1 - slip)) / p.leverage * p.commissionRate) :
    (p.autoCompound = true →
      (exitPosition p slip price r st).balance =
        st.balance + st.positionSize * st.entryPrice / p.leverage +
          ((price * (1 - slip) - st.entryPrice) * st.positionSize -
            st.positionSize * (price * (1 - slip)) / p.leverage * p.commissionRate) *
            (1 - p.reinvestPct)) ∧
    (p.autoCompound = false →
      (exitPosition p slip price r st).balance =
        st.balance + st.positionSize * st.entryPrice / p.leverage +
          ((price * (1 - slip) - st.entryPrice) * st.positionSize -
            st.positionSize * (price * (1 - slip)) / p.leverage * p.commissionRate)) ∧
    (∀ (ac : Bool) (cb lkb : ℚ) (ib : Option ℚ),
      ((updateBalanceForCompounding ac cb ⟨ib, some lkb⟩).1).initialBalance = ib) := by
  refine ⟨?_, ?_, ?_⟩
  · intro hac
    simp only [exitPosition, hin, hside, hac]
    norm_num [hpnl]
    ring
  · intro hac
    simp only [exitPosition, hin, hside, hac]
    norm_num
  · intro ac cb lkb ib
    cases ac with
    | false => rfl
    | true =>
      simp only [updateBalanceForCompounding]
      split_ifs
      all_goals rfl

/-- C8 witness: a concrete instance of `claim_C8` — exiting the long (entry
100, size 1) at 110 with zero commission and slippage yields pnl 10. -/
theorem claim_C8_instance :
    ((0 : ℚ) < (110 * (1 - 0) - longState.entryPrice) * longState.positionSize -
      longState.positionSize * (110 * (1 - 0)) / compoundParams.leverage *
        compoundParams.commissionRate) ∧
    (compoundParams.autoCompound = true →
      (exitPosition compoundParams 0 110 "signal" longState).balance =
        longState.balance + longState.positionSize * longState.entryPrice /
            compoundParams.leverage +
          ((110 * (1 - 0) - longState.entryPrice) * longState.positionSize -
            longState.positionSize * (110 * (1 - 0)) / compoundParams.leverage *
              compoundParams.commissionRate) * (1 - compoundParams.reinvestPct)) :=
  ⟨by norm_num [longState, compoundParams],
   (claim_C8 compoundParams 0 110 "signal" longState rfl rfl
     (by norm_num [longState, compoundParams])).1⟩

/-- C8 counterexample: the very same profitable exit (long entered at 100,
size 1, exit at 110, no commission) leaves a balance of 152.5 with
auto-compounding enabled but 160 with it disabled: the reinvested share
`7.5 = 10 × 0.75` is withheld from the account, so the reinvest amount is
not informational-only and the post-exit balance is not
`pre + position_value + pnl` under compounding. -/
theorem claim_C8_refuted :
    (exitPosition compoundParams 0 110 "signal" longState).balance = 305/2 ∧
    (exitPosition plainParams 0 110 "signal" longState).balance = 160 ∧
    ((305 : ℚ)/2 ≠ 160) ∧
    (305 : ℚ)/2 ≠ longState.balance +
      longState.positionSize * longState.entryPrice / compoundParams.leverage + 10 := by
  refine ⟨?_, ?_, by norm_num, by norm_num [longState, compoundParams]⟩
  · norm_num [exitPosition, longState, compoundParams]
  · norm_num [exitPosition, longState, plainParams]
